import Mathlib

/-!
# Verification of the open-dis-python extensible-record codec

Shallow embedding of `opendis/record/__init__.py`,
`opendis/record/entity_info/__init__.py` and
`opendis/record/entity_info/appearance.py`.

Byte streams are `List Nat` (each element a byte value).  The reader/writer
primitives of `opendis.stream` (not part of the sources, specified in §6 of the
design document) are modelled as big-endian readers and writers over such
lists; a read that runs out of bytes yields `none` (the stream-underrun fault).
Python exceptions are modelled with `Except`/`Option` results.
IEEE-754 float32 fields are carried as their 32-bit patterns: only the byte
count and the identity of the four serialized bytes matter for the claims.
-/

/-- Modelled from the spec: `opendis.stream` writer primitive `write_uint8`
(big-endian, network order; §6 External Interfaces). -/
def write_uint8 (n : Nat) : List Nat := [n % 256]

/-- Modelled from the spec: `opendis.stream` writer primitive `write_uint16`. -/
def write_uint16 (n : Nat) : List Nat := [n / 256 % 256, n % 256]

/-- Modelled from the spec: `opendis.stream` writer primitive `write_uint32`. -/
def write_uint32 (n : Nat) : List Nat :=
  [n / 16777216 % 256, n / 65536 % 256, n / 256 % 256, n % 256]

/-- Modelled from the spec: `opendis.stream` writer primitive `write_bytes`. -/
def write_bytes (data : List Nat) : List Nat := data

/-- Modelled from the spec: a float32 value is written as its four
big-endian pattern bytes (`write_float32`). -/
def write_float32 (bits : Nat) : List Nat := write_uint32 bits

/-- Modelled from the spec: `opendis.stream` reader primitive `read_uint8`;
underrun yields `none`. -/
def read_uint8 : List Nat → Option (Nat × List Nat)
  | [] => none
  | b :: rest => some (b, rest)

/-- Modelled from the spec: `opendis.stream` reader primitive `read_uint16`
(two bytes, big-endian). -/
def read_uint16 : List Nat → Option (Nat × List Nat)
  | b0 :: b1 :: rest => some (b0 * 256 + b1, rest)
  | _ => none

/-- Modelled from the spec: `opendis.stream` reader primitive `read_uint32`
(four bytes, big-endian). -/
def read_uint32 : List Nat → Option (Nat × List Nat)
  | b0 :: b1 :: b2 :: b3 :: rest =>
      some (b0 * 16777216 + b1 * 65536 + b2 * 256 + b3, rest)
  | _ => none

/-- Modelled from the spec: `opendis.stream` reader primitive `read_bytes n`;
fails (underrun) when fewer than `n` bytes remain. -/
def read_bytes : Nat → List Nat → Option (List Nat × List Nat)
  | 0, s => some ([], s)
  | _ + 1, [] => none
  | n + 1, b :: s =>
      match read_bytes n s with
      | none => none
      | some (data, rest) => some (b :: data, rest)

/-- Modelled from the spec (§4.1 BitPacker): fields are packed
most-significant-field-first in declaration order, each value truncated to its
declared width by masking.  The packed container word is then written as
big-endian whole bytes (`write_uint16`/`write_uint32` of this word).
The `(value, width)` pairs are in declaration order. -/
def packBits (fields : List (Nat × Nat)) : Nat :=
  fields.foldl (fun acc vw => acc * 2 ^ vw.2 + vw.1 % 2 ^ vw.2) 0

/-- Total declared bit width of a bit-field layout given as
`(fieldName, bitWidth)` pairs (the `_struct` specifications of
`appearance.py` and `NetId`/`SpreadSpectrum`). -/
def sumWidths (fields : List (String × Nat)) : Nat :=
  (fields.map Prod.snd).sum

/-- Modelled from the spec (§4.1): the BitPacker validates at construction
time that the declared widths sum exactly to the container's total bit width
(a configuration fault otherwise). -/
def bitfieldWidthsValid (fields : List (String × Nat)) (containerWidth : Nat) : Bool :=
  sumWidths fields == containerWidth

/-- `NetId.serialize`: the four sub-fields are packed into a 16-bit container
(widths 10, 2, 2, 2) and written big-endian. -/
def netIdSerialize (netNumber frequencyTable mode padding : Nat) : List Nat :=
  write_uint16 (packBits [(netNumber, 10), (frequencyTable, 2), (mode, 2), (padding, 2)])

/-! ## Standard Variable (length-prefixed) records — `opendis/record/__init__.py` -/

/-- Values of the Standard Variable record family that the embedding tracks:
the `UnknownStandardVariable` fallback (discriminator plus raw payload bytes)
and the concrete `HighFidelityHAVEQUICKRadio` record (recordType 3000,
marshalled size 40). -/
inductive SVRecord where
  | unknownStandardVariable (recordType : Nat) (data : List Nat)
  | highFidelityHAVEQUICKRadio
      (padding1 netNumber frequencyTable mode netIdPadding
       todTransmitIndicator padding2 todDelta
       wod1 wod2 wod3 wod4 wod5 wod6 : Nat)
  deriving DecidableEq

/-- `StandardVariableRecord.recordType` for each tracked value
(`UnknownStandardVariable` stores the observed discriminator;
`HighFidelityHAVEQUICKRadio.recordType = 3000`). -/
def SVRecord.recordType : SVRecord → Nat
  | .unknownStandardVariable t _ => t
  | .highFidelityHAVEQUICKRadio .. => 3000

/-- `marshalledSize`: 6 header bytes plus the payload
(`UnknownStandardVariable`: `6 + len(data)`;
`HighFidelityHAVEQUICKRadio`: constant 40). -/
def SVRecord.marshalledSize : SVRecord → Nat
  | .unknownStandardVariable _ data => 6 + data.length
  | .highFidelityHAVEQUICKRadio .. => 40

/-- `serialize`: the base class writes `recordType` (uint32) and
`length` (uint16, equal to `marshalledSize`), then the subclass payload:
raw bytes for `UnknownStandardVariable`; padding, NetId bitfield, indicator
bytes, time-of-day delta and the six words-of-day for
`HighFidelityHAVEQUICKRadio`. -/
def SVRecord.serialize : SVRecord → List Nat
  | .unknownStandardVariable t data =>
      write_uint32 t ++ write_uint16 (6 + data.length) ++ write_bytes data
  | .highFidelityHAVEQUICKRadio p1 nn ft md np tti p2 td w1 w2 w3 w4 w5 w6 =>
      write_uint32 3000 ++ write_uint16 40 ++
      write_uint16 p1 ++ netIdSerialize nn ft md np ++
      write_uint8 tti ++ write_uint8 p2 ++ write_uint32 td ++
      write_uint32 w1 ++ write_uint32 w2 ++ write_uint32 w3 ++
      write_uint32 w4 ++ write_uint32 w5 ++ write_uint32 w6

/-- Decode-time faults of the Standard Variable framework:
`typeError` (bytelength is `None`), `bytelengthTooSmall`
(`ValueError("bytelength too small")`), `streamUnderrun` (the stream ran out
of bytes). -/
inductive SVParseError where
  | typeError
  | bytelengthTooSmall
  | streamUnderrun
  deriving DecidableEq

/-- `StandardVariableRecord.parse` argument validation: raises `TypeError`
when `bytelength is None`, and `ValueError("bytelength too small")` when
`bytelength <= 6`. -/
def standardVariableRecordParseValidate (bytelength : Option Nat) :
    Except SVParseError Unit :=
  match bytelength with
  | none => .error .typeError
  | some n => if n ≤ 6 then .error .bytelengthTooSmall else .ok ()

/-- `UnknownStandardVariable.parse`: validate via the base class, then read
`bytelength - 6` raw payload bytes (recordType and length were already
consumed by the caller). -/
def unknownStandardVariableParse (recordType : Nat) (bytelength : Option Nat)
    (s : List Nat) : Except SVParseError (SVRecord × List Nat) :=
  match bytelength with
  | none => .error .typeError
  | some n =>
      match standardVariableRecordParseValidate (some n) with
      | .error e => .error e
      | .ok _ =>
          match read_bytes (n - 6) s with
          | none => .error .streamUnderrun
          | some (data, rest) =>
              .ok (.unknownStandardVariable recordType data, rest)

/-- The per-item loop of `StandardVariables.parse`: for each of the `n`
records, read the uint32 discriminator and the uint16 length, then construct
an `UnknownStandardVariable(recordType)` and call its `parse` with the length
as `bytelength`.  (The source performs no registry dispatch here.) -/
def parseSVItems : Nat → List Nat → Except SVParseError (List SVRecord × List Nat)
  | 0, s => .ok ([], s)
  | n + 1, s =>
      match read_uint32 s with
      | none => .error .streamUnderrun
      | some (recordType, s1) =>
          match read_uint16 s1 with
          | none => .error .streamUnderrun
          | some (recordLength, s2) =>
              match unknownStandardVariableParse recordType (some recordLength) s2 with
              | .error e => .error e
              | .ok (sv, s3) =>
                  match parseSVItems n s3 with
                  | .error e => .error e
                  | .ok (items, s4) => .ok (sv :: items, s4)

/-- `StandardVariables.parse`: the item list is reset to empty
(`self._standardVariables = []`), so the prior contents are discarded;
then the 2-byte count is read and that many items parsed. -/
def standardVariablesParse (_prior : List SVRecord) (s : List Nat) :
    Except SVParseError (List SVRecord × List Nat) :=
  match read_uint16 s with
  | none => .error .streamUnderrun
  | some (count, s1) => parseSVItems count s1

/-- `StandardVariables.serialize`: write the 2-byte
`standardVariableRecordCount` (derived from the live list length) followed by
each item's own serialization, in order. -/
def standardVariablesSerialize (items : List SVRecord) : List Nat :=
  write_uint16 items.length ++ items.foldr (fun sv acc => sv.serialize ++ acc) []

/-- `__SVTypeMap`: the registered Standard Variable record types. -/
inductive SVClassTag where
  | unknownStandardVariable
  | highFidelityHAVEQUICKRadio
  | directedEnergyDamageDescription
  deriving DecidableEq

/-- The literal `__SVTypeMap` dictionary:
`{0: UnknownStandardVariable, 3000: HighFidelityHAVEQUICKRadio,
4500: DirectedEnergyDamageDescription}`. -/
def svTypeMap (recordType : Nat) : Option SVClassTag :=
  if recordType = 0 then some .unknownStandardVariable
  else if recordType = 3000 then some .highFidelityHAVEQUICKRadio
  else if recordType = 4500 then some .directedEnergyDamageDescription
  else none

/-- Failure modes of `getSVClass`: `ValueError("Unknown recordType: …")` and
the `TypeError` raised when the resolved class does not satisfy
`expectedType`. -/
inductive GetSVError where
  | valueErrorUnknownRecordType
  | typeErrorNotASubclass
  deriving DecidableEq

/-- `getSVClass(recordType)` with the default
`expectedType=StandardVariableRecord` (every registered class is a subclass of
the base, so the `issubclass` check passes whenever the lookup succeeds):
raises `ValueError` when the discriminator is not a key of `__SVTypeMap`. -/
def getSVClass (recordType : Nat) : Except GetSVError SVClassTag :=
  match svTypeMap recordType with
  | none => .error .valueErrorUnknownRecordType
  | some cls => .ok cls

/-! ## Variable Parameter (fixed-slot) records — `entity_info/__init__.py` -/

/-- Python runtime faults observable when serializing records whose
attributes were never assigned: reading a missing attribute raises
`AttributeError`. -/
inductive PyFault where
  | attributeError
  deriving DecidableEq

/-- `ArticulatedPart` (recordType 0): the constructor assigns
`changeIndicator`, `partAttachedTo`, `parameterType`, `parameterValue`.
`parameterValue` is a float32, carried here as its 32-bit pattern. -/
structure ArticulatedPart where
  changeIndicator : Nat
  partAttachedTo : Nat
  parameterType : Nat
  parameterValue : Nat
  deriving DecidableEq

/-- `ArticulatedPart.recordType = 0`. -/
def articulatedPartRecordType : Nat := 0

/-- `VariableParameterRecord.marshalledSize()` — the structural constant 16,
inherited by `ArticulatedPart`. -/
def articulatedPartMarshalledSize : Nat := 16

/-- `ArticulatedPart()` with the constructor's default field values. -/
def articulatedPartInit : ArticulatedPart := ⟨0, 0, 0, 0⟩

/-- `ArticulatedPart.serialize`: the `VariableParameterRecord` base writes the
1-byte `recordType` (its own base, `base.Record.serialize`, writes nothing —
modelled from the spec, `base` is outside the sources), then
`changeIndicator` (uint8), `partAttachedTo` (uint16), `parameterType`
(uint32) and `parameterValue` (float32). -/
def articulatedPartSerialize (r : ArticulatedPart) : List Nat :=
  write_uint8 articulatedPartRecordType ++
  write_uint8 r.changeIndicator ++
  write_uint16 r.partAttachedTo ++
  write_uint32 r.parameterType ++
  write_float32 r.parameterValue

/-- `AttachedPart` (recordType 1): the constructor assigns
`detachedIndicator`, `partAttachedTo`, `parameterType` and
`attachedPartType` (an 8-byte EntityType, kept abstract here).  It never
assigns `parameterValue`, yet `serialize` reads `self.parameterValue`; the
field is therefore `Option`-valued, `none` meaning "attribute not set". -/
structure AttachedPart where
  detachedIndicator : Nat
  partAttachedTo : Nat
  parameterType : Nat
  attachedPartTypeBytes : List Nat
  parameterValue : Option Nat
  deriving DecidableEq

/-- `AttachedPart()` with the constructor's default field values:
`parameterValue` is never assigned by `__init__`. -/
def attachedPartInit : AttachedPart :=
  ⟨0, 0, 0, List.replicate 8 0, none⟩

/-- `AttachedPart.serialize`: writes the 1-byte `recordType` (= 1) via the
base class, then `detachedIndicator`, `partAttachedTo`, `parameterType`, and
finally `self.parameterValue` as a float32 — raising `AttributeError` when
that attribute was never assigned. -/
def attachedPartSerialize (r : AttachedPart) : Except PyFault (List Nat) :=
  match r.parameterValue with
  | none => .error .attributeError
  | some v =>
      .ok (write_uint8 1 ++
           write_uint8 r.detachedIndicator ++
           write_uint16 r.partAttachedTo ++
           write_uint32 r.parameterType ++
           write_float32 v)

/-- Result of `getVariableParameterClass`: one of the two registered classes,
or the locally declared `UnknownVariableParameterRecord` placeholder whose
`recordType` class attribute is `some t` only if it was actually assigned
(`none` = only annotated, never set). -/
inductive VPClass where
  | articulatedPart
  | attachedPart
  | unknownVariableParameterRecord (recordTypeAttr : Option Nat)
  deriving DecidableEq

/-- The `__variableParameterClasses` dictionary:
`{0: ArticulatedPart, 1: AttachedPart}`. -/
def variableParameterClasses (recordType : Nat) : Option VPClass :=
  if recordType = 0 then some .articulatedPart
  else if recordType = 1 then some .attachedPart
  else none

/-- In the source, `vrClass` is a class object, so
`isinstance(vrClass, UnknownVariableParameterRecord)` asks whether that class
object is an *instance* of `UnknownVariableParameterRecord`; a class object is
an instance of `type`, never of the record class, so the test is always
`False` and the branch `vrClass.recordType = recordType` never executes. -/
def isinstanceVrClassUnknownVP : Bool := false

/-- `getVariableParameterClass(recordType)` for a non-negative integer
discriminator (the `ValueError` guard for negative/non-int inputs cannot fire
on `Nat`): look the discriminator up in `__variableParameterClasses`, falling
back to the local `UnknownVariableParameterRecord` class; the subsequent
`isinstance` test (see `isinstanceVrClassUnknownVP`) governs whether the
observed discriminator is stored on the placeholder class. -/
def getVariableParameterClass (recordType : Nat) : VPClass :=
  match variableParameterClasses recordType with
  | some cls => cls
  | none =>
      if isinstanceVrClassUnknownVP then
        .unknownVariableParameterRecord (some recordType)
      else
        .unknownVariableParameterRecord none

/-! ## Appearance records — `entity_info/appearance.py` -/

/-- The `AppearanceRecord` subclasses (plus the `UnknownAppearance`
fallback), i.e. the classes `getEntityAppearanceClass` can return. -/
inductive AppearanceClass where
  | unknownAppearance
  | landPlatformAppearance
  | airPlatformAppearance
  | surfacePlatformAppearance
  | subsurfacePlatformAppearance
  | spacePlatformAppearance
  | munitionAppearance
  | humanLifeFormAppearance
  | environmentalAppearance
  | culturalFeatureAppearance
  | supplyAppearance
  | radioAppearance
  | expendableAppearance
  | sensorEmitterAppearance
  deriving DecidableEq

/-- `LandPlatformAppearance._struct` field layout. -/
def landPlatformAppearanceFields : List (String × Nat) :=
  [("paintScheme", 1), ("mobilityKilled", 1), ("firepowerKilled", 1),
   ("damage", 2), ("isSmokeEmanating", 1), ("isEngineEmittingSmoke", 1),
   ("trailingDustCloud", 2), ("primaryHatch", 3), ("headLightsOn", 1),
   ("tailLightsOn", 1), ("brakeLightsOn", 1), ("isFlaming", 1),
   ("operational", 1), ("camouflageType", 2), ("concealedPosition", 1),
   ("unused", 1), ("isFrozen", 1), ("powerPlantOn", 1), ("state", 1),
   ("tentExtended", 1), ("rampExtended", 1), ("blackoutLightsOn", 1),
   ("blackoutBrakeLightsOn", 1), ("spotLightOn", 1), ("interiorLightsOn", 1),
   ("occupantsSurrendered", 1), ("cloaked", 1)]

/-- `AirPlatformAppearance._struct` field layout. -/
def airPlatformAppearanceFields : List (String × Nat) :=
  [("paintScheme", 1), ("propulsionKilled", 1), ("nvgMode", 1),
   ("damage", 2), ("isSmokeEmanating", 1), ("isEngineEmittingSmoke", 1),
   ("trailingEffects", 2), ("canopyDoor", 3), ("landingLightsOn", 1),
   ("navigationLightsOn", 1), ("antiCollisionLightsOn", 1), ("isFlaming", 1),
   ("afterburnerOn", 1), ("lowerAntiCollisionLightOn", 1),
   ("upperAntiCollisionLightOn", 1), ("antiCollisionLightDayOrNight", 1),
   ("isBlinking", 1), ("isFrozen", 1), ("powerPlantOn", 1), ("state", 1),
   ("formationLightsOn", 1), ("landingGearExtended", 1),
   ("cargoDoorsOpened", 1), ("navigationLightBrightness", 1),
   ("spotLightOn", 1), ("interiorLightsOn", 1), ("reverseThrustEngaged", 1),
   ("weightOnWheels", 1)]

/-- `SurfacePlatformAppearance._struct` field layout (widths as declared in
the source, including the 2-bit `isFenceRaised` and `isFlagRaised` entries
whose comments label them single bits). -/
def surfacePlatformAppearanceFields : List (String × Nat) :=
  [("paintScheme", 1), ("mobilityKilled", 1), ("unused1", 1),
   ("damage", 2), ("isSmokeEmanating", 1), ("isEngineEmittingSmoke", 1),
   ("wakeSize", 2), ("unused2", 3), ("runningLightsOn", 1), ("unused3", 2),
   ("isFlaming", 1), ("isAccomodationLadderLowered", 1),
   ("isFenceRaised", 2), ("isFlagRaised", 2), ("unused4", 2),
   ("isFrozen", 1), ("powerPlantOn", 1), ("state", 1), ("unused5", 3),
   ("towedArraySonar", 1), ("spotLightOn", 1), ("interiorLightsOn", 1),
   ("unused6", 2)]

/-- `SubsurfacePlatformAppearance._struct` field layout. -/
def subsurfacePlatformAppearanceFields : List (String × Nat) :=
  [("paintScheme", 1), ("mobilityKilled", 1), ("unused1", 1),
   ("damage", 2), ("isSmokeEmanating", 1), ("isEngineEmittingSmoke", 1),
   ("unused2", 2), ("hatchState", 3), ("runningLightsOn", 1), ("unused3", 2),
   ("isFlaming", 1), ("periscope", 1), ("snorkel", 1), ("radarMast", 1),
   ("commsMast", 1), ("esmMast", 1), ("isFrozen", 1), ("powerPlantOn", 1),
   ("state", 1), ("unused4", 1), ("torpedoTubesOpen", 1),
   ("missileHatchesOpen", 1), ("towedArraySonar", 1), ("unused5", 4)]

/-- `SpacePlatformAppearance._struct` field layout. -/
def spacePlatformAppearanceFields : List (String × Nat) :=
  [("paintScheme", 1), ("mobilityKilled", 1), ("unused1", 1),
   ("damage", 2), ("isSmokeEmanating", 1), ("isEngineEmittingSmoke", 1),
   ("unused2", 8), ("isFlaming", 1), ("unused3", 5), ("isFrozen", 1),
   ("powerPlantOn", 1), ("state", 1), ("unused4", 8)]

/-- `MunitionAppearance._struct` field layout. -/
def munitionAppearanceFields : List (String × Nat) :=
  [("unused", 3), ("damage", 2), ("sSmokeEmanating", 1),
   ("isEngineEmittingSmoke", 1), ("vaporTrailSize", 2), ("unused1", 6),
   ("isFlaming", 1), ("launchFlashPresent", 1), ("unused2", 4),
   ("isFrozen", 1), ("powerPlantOn", 1), ("state", 1),
   ("coverShroudStatus", 2), ("unused3", 6)]

/-- `HumanLifeFormAppearance._struct` field layout (including the 2-bit
`mountedStatus` whose comment labels bit 22 only). -/
def humanLifeFormAppearanceFields : List (String × Nat) :=
  [("paintScheme", 1), ("unused1", 2), ("health", 2),
   ("complianceStatus", 4), ("clothingIRSignature", 2),
   ("signalSmokeInUse", 1), ("flashLightsOn", 1), ("signalMirrorInUse", 1),
   ("irStrobeOn", 1), ("irIlluminatorOn", 1), ("ifeFormPosture", 4),
   ("isSmokingCigarette", 1), ("isFrozen", 1), ("mountedStatus", 2),
   ("state", 1), ("primaryWeaponPosition", 2), ("secondaryWeaponPosition", 2),
   ("camouflageType", 2), ("concealedStationary", 1), ("concealedMoving", 1)]

/-- `EnvironmentalAppearance._struct` field layout (no field covers bit 20:
`density` ends at bit 19 and `isFrozen` is declared as bit 21). -/
def environmentalAppearanceFields : List (String × Nat) :=
  [("unused1", 16), ("density", 4), ("isFrozen", 1), ("unused2", 1),
   ("state", 1), ("unused3", 7), ("masked", 1)]

/-- `CulturalFeatureAppearance._struct` field layout. -/
def culturalFeatureAppearanceFields : List (String × Nat) :=
  [("damageArea", 3), ("damage", 2), ("isSmokeEmanating", 1),
   ("unused1", 9), ("isFlaming", 1), ("unused2", 5), ("isFrozen", 1),
   ("internalHeatOn", 1), ("state", 1), ("unused3", 4),
   ("exteriorLightsOn", 1), ("interiorLightsOn", 1), ("unused4", 1),
   ("masked", 1)]

/-- `SupplyAppearance._struct` field layout. -/
def supplyAppearanceFields : List (String × Nat) :=
  [("paintScheme", 1), ("unused1", 2), ("damage", 2), ("unused2", 2),
   ("parachuteStatus", 2), ("unused3", 6), ("isFlaming", 1), ("unused4", 5),
   ("isFrozen", 1), ("unused5", 1), ("state", 1), ("deployedStatus", 2),
   ("unused6", 5), ("masked", 1)]

/-- `RadioAppearance._struct` field layout. -/
def radioAppearanceFields : List (String × Nat) :=
  [("unused1", 21), ("isFrozen", 1), ("unused2", 1), ("state", 1),
   ("unused3", 8)]

/-- `ExpendableAppearance._struct` field layout (bit 6, bits 12–14 and
bits 19–20, among others, are covered by no declared field). -/
def expendableAppearanceFields : List (String × Nat) :=
  [("unused1", 3), ("damage", 2), ("isSmokeEmanating", 1),
   ("parachuteStatus", 2), ("flareOrSmokeColor", 3), ("isFlaming", 1),
   ("launchFlashPresent", 1), ("flareOrSmokeStatus", 2), ("isFrozen", 1),
   ("powerPlantOn", 1), ("state", 1), ("spotChaffStatus", 2),
   ("unused2", 6), ("masked", 1)]

/-- `SensorEmitterAppearance._struct` field layout. -/
def sensorEmitterAppearanceFields : List (String × Nat) :=
  [("paintScheme", 1), ("mobilityKilled", 1), ("missionKilled", 1),
   ("damage", 2), ("isSmokeEmanating", 1), ("isEngineEmittingSmoke", 1),
   ("trailingEffects", 2), ("unused1", 3), ("lightsOn", 1), ("unused2", 2),
   ("isFlaming", 1), ("antennaRaised", 1), ("camouflageType", 2),
   ("concealedPosition", 1), ("unused3", 1), ("isFrozen", 1),
   ("powerPlantOn", 1), ("state", 1), ("tentExtended", 1), ("unused4", 1),
   ("blackoutLightsOn", 1), ("unused5", 2), ("interiorLightsOn", 1),
   ("unused6", 2)]

/-- The declared `_struct` layout of each `AppearanceRecord` subclass
(`UnknownAppearance` declares none and stores raw bytes instead). -/
def appearanceStructFields : AppearanceClass → List (String × Nat)
  | .unknownAppearance => []
  | .landPlatformAppearance => landPlatformAppearanceFields
  | .airPlatformAppearance => airPlatformAppearanceFields
  | .surfacePlatformAppearance => surfacePlatformAppearanceFields
  | .subsurfacePlatformAppearance => subsurfacePlatformAppearanceFields
  | .spacePlatformAppearance => spacePlatformAppearanceFields
  | .munitionAppearance => munitionAppearanceFields
  | .humanLifeFormAppearance => humanLifeFormAppearanceFields
  | .environmentalAppearance => environmentalAppearanceFields
  | .culturalFeatureAppearance => culturalFeatureAppearanceFields
  | .supplyAppearance => supplyAppearanceFields
  | .radioAppearance => radioAppearanceFields
  | .expendableAppearance => expendableAppearanceFields
  | .sensorEmitterAppearance => sensorEmitterAppearanceFields

/-- `getEntityAppearanceClass(entityType, domain)`: the ordered `match` of
the source, translated case for case (`domain` is `None` or an integer). -/
def getEntityAppearanceClass (entityType : Nat) (domain : Option Nat) :
    AppearanceClass :=
  match entityType, domain with
  | 0, _ => .unknownAppearance
  | 1, some 1 => .landPlatformAppearance
  | 1, some 2 => .airPlatformAppearance
  | 1, some 3 => .surfacePlatformAppearance
  | 1, some 4 => .subsurfacePlatformAppearance
  | 1, some 5 => .spacePlatformAppearance
  | 2, _ => .munitionAppearance
  | 3, _ => .humanLifeFormAppearance
  | 4, _ => .environmentalAppearance
  | 5, _ => .culturalFeatureAppearance
  | 6, _ => .supplyAppearance
  | 7, _ => .radioAppearance
  | 8, _ => .expendableAppearance
  | 9, _ => .sensorEmitterAppearance
  | _, _ => .unknownAppearance

/-- The claim's reading of the dispatch: an ordered list of pattern rules,
evaluated top-to-bottom with the first match winning — kind 0 for every
domain, kind 1 with domains 1–5, kinds 2–9 for every domain. -/
def appearanceDispatchRules :
    List ((Nat → Option Nat → Bool) × AppearanceClass) :=
  [(fun k _ => k == 0, .unknownAppearance),
   (fun k d => k == 1 && d == some 1, .landPlatformAppearance),
   (fun k d => k == 1 && d == some 2, .airPlatformAppearance),
   (fun k d => k == 1 && d == some 3, .surfacePlatformAppearance),
   (fun k d => k == 1 && d == some 4, .subsurfacePlatformAppearance),
   (fun k d => k == 1 && d == some 5, .spacePlatformAppearance),
   (fun k _ => k == 2, .munitionAppearance),
   (fun k _ => k == 3, .humanLifeFormAppearance),
   (fun k _ => k == 4, .environmentalAppearance),
   (fun k _ => k == 5, .culturalFeatureAppearance),
   (fun k _ => k == 6, .supplyAppearance),
   (fun k _ => k == 7, .radioAppearance),
   (fun k _ => k == 8, .expendableAppearance),
   (fun k _ => k == 9, .sensorEmitterAppearance)]

/-- First-match-wins evaluation of `appearanceDispatchRules`, with the final
default rule mapping everything else to `UnknownAppearance`. -/
def appearanceDispatchSpec (entityKind : Nat) (domain : Option Nat) :
    AppearanceClass :=
  match appearanceDispatchRules.find? (fun rule => rule.1 entityKind domain) with
  | some rule => rule.2
  | none => .unknownAppearance

/-- `UnknownAppearance`: placeholder holding four raw bytes (constructor
default `b'\0' * 4`). -/
structure UnknownAppearance where
  data : List Nat
  deriving DecidableEq

/-- `UnknownAppearance()` with the constructor's default data. -/
def unknownAppearanceInit : UnknownAppearance := ⟨[0, 0, 0, 0]⟩

/-- `AppearanceRecord.marshalledSize()` — always 4 bytes. -/
def appearanceRecordMarshalledSize : Nat := 4

/-- `UnknownAppearance.serialize`: writes `self.data`. -/
def unknownAppearanceSerialize (r : UnknownAppearance) : List Nat :=
  write_bytes r.data

/-- `UnknownAppearance.parse`: reads `marshalledSize()` bytes from the stream
but binds them to `_`, leaving `self.data` unchanged. -/
def unknownAppearanceParse (r : UnknownAppearance) (s : List Nat) :
    Option (UnknownAppearance × List Nat) :=
  match read_bytes appearanceRecordMarshalledSize s with
  | none => none
  | some (_, rest) => some (r, rest)

/-- `MunitionAppearance` instance attributes.  `__init__` assigns `damage`,
`isSmokeEmanating`, `isEngineEmittingSmoke`, `vaporTrailSize`, `unused1`,
`isFlaming`, `launchFlashPresent`, `unused2`, `isFrozen`, `powerPlantOn`,
`state`, `coverShroudStatus` and `unused3` — but never `unused` (the first
`_struct` field), which `serialize` reads; that attribute is `Option`-valued,
`none` meaning "never assigned" (`parse` does assign it). -/
structure MunitionAppearance where
  unused : Option Nat
  damage : Nat
  isSmokeEmanating : Nat
  isEngineEmittingSmoke : Nat
  vaporTrailSize : Nat
  unused1 : Nat
  isFlaming : Nat
  launchFlashPresent : Nat
  unused2 : Nat
  isFrozen : Nat
  powerPlantOn : Nat
  state : Nat
  coverShroudStatus : Nat
  unused3 : Nat
  deriving DecidableEq

/-- `MunitionAppearance()` with the constructor's default field values
(booleans coerced to 0/1; `powerPlantOn` defaults to `True`). -/
def munitionAppearanceInit : MunitionAppearance :=
  ⟨none, 0, 0, 0, 0, 0, 0, 0, 0, 0, 1, 0, 0, 0⟩

/-- `MunitionAppearance.serialize`: packs the fourteen `_struct` fields, in
declaration order, reading `self.unused` first — raising `AttributeError`
when that attribute was never assigned. -/
def munitionAppearanceSerialize (r : MunitionAppearance) :
    Except PyFault (List Nat) :=
  match r.unused with
  | none => .error .attributeError
  | some u =>
      .ok (write_uint32 (packBits
        [(u, 3), (r.damage, 2), (r.isSmokeEmanating, 1),
         (r.isEngineEmittingSmoke, 1), (r.vaporTrailSize, 2), (r.unused1, 6),
         (r.isFlaming, 1), (r.launchFlashPresent, 1), (r.unused2, 4),
         (r.isFrozen, 1), (r.powerPlantOn, 1), (r.state, 1),
         (r.coverShroudStatus, 2), (r.unused3, 6)]))

/-! ## SilentEntitySystem — `entity_info/__init__.py` -/

/-- Modelled from the spec: the 8-byte `EntityType` record of
`opendis.record.common` (outside the sources) — kind, domain, country
(uint16), category, subcategory, specific, extra. -/
structure EntityType where
  entityKind : Nat
  domain : Nat
  country : Nat
  category : Nat
  subcategory : Nat
  specific : Nat
  extra : Nat
  deriving DecidableEq

/-- Modelled from the spec: `EntityType()` with all-zero defaults. -/
def entityTypeInit : EntityType := ⟨0, 0, 0, 0, 0, 0, 0⟩

/-- Modelled from the spec: `EntityType.parse` consumes the 8 bytes of the
record (uint8 kind, uint8 domain, uint16 country, four uint8 fields). -/
def entityTypeParse (s : List Nat) : Option (EntityType × List Nat) :=
  match read_uint8 s with
  | none => none
  | some (k, s1) =>
      match read_uint8 s1 with
      | none => none
      | some (d, s2) =>
          match read_uint16 s2 with
          | none => none
          | some (c, s3) =>
              match read_uint8 s3 with
              | none => none
              | some (cat, s4) =>
                  match read_uint8 s4 with
                  | none => none
                  | some (sub, s5) =>
                      match read_uint8 s5 with
                      | none => none
                      | some (sp, s6) =>
                          match read_uint8 s6 with
                          | none => none
                          | some (ex, s7) =>
                              some (⟨k, d, c, cat, sub, sp, ex⟩, s7)

/-- A parsed appearance record: a concrete class stores the field values
unpacked from its 32-bit word; a fresh `UnknownAppearance()` keeps its
constructor-default data because its `parse` discards what it reads. -/
inductive AppearanceVal where
  | known (cls : AppearanceClass) (word : Nat)
  | unknownDefaultKept (data : List Nat)
  deriving DecidableEq

/-- Parsing one appearance record of a given class: every concrete class
reads its 4-byte container word via the bitfield (`_struct.parse`);
`UnknownAppearance` reads 4 bytes and keeps its default data. -/
def appearanceParse (cls : AppearanceClass) (s : List Nat) :
    Option (AppearanceVal × List Nat) :=
  match cls with
  | .unknownAppearance =>
      match read_bytes appearanceRecordMarshalledSize s with
      | none => none
      | some (_, rest) => some (.unknownDefaultKept [0, 0, 0, 0], rest)
  | c =>
      match read_uint32 s with
      | none => none
      | some (w, rest) => some (.known c w, rest)

/-- The parse loop of `SilentEntitySystem.parse`: read
`appearanceRecordCount` appearance records of the dispatched class. -/
def parseAppearanceRecords (cls : AppearanceClass) :
    Nat → List Nat → Option (List AppearanceVal × List Nat)
  | 0, s => some ([], s)
  | n + 1, s =>
      match appearanceParse cls s with
      | none => none
      | some (v, s1) =>
          match parseAppearanceRecords cls n s1 with
          | none => none
          | some (vs, s2) => some (v :: vs, s2)

/-- `SilentEntitySystem` state: `entityCount`, `entityType`, and the
`entityAppearances` list. -/
structure SilentEntitySystem where
  entityCount : Nat
  entityType : EntityType
  entityAppearances : List AppearanceVal
  deriving DecidableEq

/-- `SilentEntitySystem.parse`: overwrite `entityCount` and (via
`entityType.parse`) `entityType` from the stream, then loop
`appearanceRecordCount` times, dispatching on the freshly parsed
`(entityKind, domain)` and **appending** each parsed appearance record to
the existing `entityAppearances` list — the list is never cleared first. -/
def silentEntitySystemParse (st : SilentEntitySystem) (s : List Nat) :
    Option (SilentEntitySystem × List Nat) :=
  match read_uint16 s with
  | none => none
  | some (entityCount, s1) =>
      match read_uint16 s1 with
      | none => none
      | some (appearanceRecordCount, s2) =>
          match entityTypeParse s2 with
          | none => none
          | some (et, s3) =>
              match parseAppearanceRecords
                  (getEntityAppearanceClass et.entityKind (some et.domain))
                  appearanceRecordCount s3 with
              | none => none
              | some (items, s4) =>
                  some ({ entityCount := entityCount,
                          entityType := et,
                          entityAppearances := st.entityAppearances ++ items },
                        s4)

/-! ## Helper lemmas -/

/-- Reading a uint16 back from its big-endian serialization recovers the
value modulo 2^16 and leaves the remaining stream untouched. -/
theorem read_uint16_of_write (n : Nat) (r : List Nat) :
    read_uint16 (write_uint16 n ++ r) = some (n % 65536, r) := by
  have h : n / 256 % 256 * 256 + n % 256 = n % 65536 := by omega
  simp [write_uint16, read_uint16, h]

/-- Reading a uint32 back from its big-endian serialization recovers the
value modulo 2^32 and leaves the remaining stream untouched. -/
theorem read_uint32_of_write (n : Nat) (r : List Nat) :
    read_uint32 (write_uint32 n ++ r) = some (n % 4294967296, r) := by
  have h : n / 16777216 % 256 * 16777216 + n / 65536 % 256 * 65536 +
      n / 256 % 256 * 256 + n % 256 = n % 4294967296 := by omega
  simp [write_uint32, read_uint32, h]

/-- `read_bytes` consumes exactly the prefix of the declared length. -/
theorem read_bytes_of_append (data r : List Nat) :
    read_bytes data.length (data ++ r) = some (data, r) := by
  induction data with
  | nil => simp [read_bytes]
  | cons b rest ih => simp [read_bytes, ih]

/-- The appearance-record loop of `SilentEntitySystem.parse` returns exactly
as many records as the count it was asked for. -/
theorem parseAppearanceRecords_length_eq (cls : AppearanceClass) :
    ∀ (n : Nat) (s : List Nat) (vs : List AppearanceVal) (s' : List Nat),
      parseAppearanceRecords cls n s = some (vs, s') → vs.length = n := by
  intro n
  induction n with
  | zero =>
      intro s vs s' h
      simp [parseAppearanceRecords] at h
      simp [h.1]
  | succ m ih =>
      intro s vs s' h
      simp only [parseAppearanceRecords] at h
      cases h1 : appearanceParse cls s with
      | none => simp [h1] at h
      | some p =>
          obtain ⟨v, s1⟩ := p
          simp only [h1] at h
          cases h2 : parseAppearanceRecords cls m s1 with
          | none => simp [h2] at h
          | some q =>
              obtain ⟨vs2, s2⟩ := q
              simp only [h2, Option.some.injEq, Prod.mk.injEq] at h
              rw [← h.1]
              simp [ih s1 vs2 s2 h2]

/-- The per-item loop of `StandardVariables.parse` inverts serialization when
every serialized item is an `UnknownStandardVariable` whose discriminator
fits in 32 bits and whose payload is nonempty with total length below 2^16. -/
theorem parseSVItems_of_serialized (items : List SVRecord) (extra : List Nat)
    (hvalid : ∀ r ∈ items, ∃ t data,
      r = SVRecord.unknownStandardVariable t data ∧ t < 4294967296 ∧
      0 < data.length ∧ 6 + data.length < 65536) :
    parseSVItems items.length
      (items.foldr (fun sv acc => sv.serialize ++ acc) [] ++ extra) =
      .ok (items, extra) := by
  induction items with
  | nil => simp [parseSVItems]
  | cons r tl ih =>
      obtain ⟨t, data, rfl, ht, hlen, hsmall⟩ := hvalid r (by simp)
      have htl : ∀ x ∈ tl, ∃ t data,
          x = SVRecord.unknownStandardVariable t data ∧ t < 4294967296 ∧
          0 < data.length ∧ 6 + data.length < 65536 := by
        intro x hx; exact hvalid x (by simp [hx])
      have h6 : ¬ (6 + data.length ≤ 6) := by omega
      have hsub : 6 + data.length - 6 = data.length := by omega
      have hser : (SVRecord.unknownStandardVariable t data).serialize =
          write_uint32 t ++ write_uint16 (6 + data.length) ++ data := rfl
      simp only [List.length_cons, List.foldr_cons, hser, List.append_assoc,
        parseSVItems, read_uint32_of_write, Nat.mod_eq_of_lt ht]
      simp only [read_uint16_of_write, Nat.mod_eq_of_lt hsmall]
      simp only [unknownStandardVariableParse,
        standardVariableRecordParseValidate, if_neg h6, hsub,
        read_bytes_of_append]
      rw [ih htl]

/-! ## Claim theorems -/

/-- C1: the round-trip identity fails for the appearance-shape Unknown
fallback: `UnknownAppearance.parse` reads the four bytes of
`serialize(R)` but discards them, so the reparsed value re-serializes to the
constructor-default zero bytes instead of the original
`[0xAA, 0xBB, 0xCC, 0xDD]`. -/
theorem spec_C1_unknown_appearance_roundtrip_loses_bytes :
    unknownAppearanceSerialize ⟨[170, 187, 204, 221]⟩ = [170, 187, 204, 221] ∧
    unknownAppearanceParse unknownAppearanceInit [170, 187, 204, 221] =
      some (unknownAppearanceInit, []) ∧
    unknownAppearanceSerialize unknownAppearanceInit = [0, 0, 0, 0] ∧
    ([0, 0, 0, 0] : List Nat) ≠ [170, 187, 204, 221] := by
  refine ⟨rfl, by decide, rfl, by decide⟩

/-- C2: `getSVClass` is not total over discriminators: an unregistered
discriminator (42) raises `ValueError` instead of returning the
`UnknownStandardVariable` factory, while registered discriminators resolve
to their concrete classes. -/
theorem spec_C2_getSVClass_raises_on_unregistered :
    getSVClass 42 = .error .valueErrorUnknownRecordType ∧
    getSVClass 0 = .ok .unknownStandardVariable ∧
    getSVClass 3000 = .ok .highFidelityHAVEQUICKRadio ∧
    getSVClass 4500 = .ok .directedEnergyDamageDescription := by
  refine ⟨rfl, rfl, rfl, rfl⟩

/-- C5: `ArticulatedPart.serialize` writes 12 bytes for every value — one
discriminator byte plus an 11-byte payload — while `marshalledSize()` is the
structural constant 16; the size/bytes-written invariant fails. -/
theorem spec_C5_articulated_part_writes_12_of_16 (r : ArticulatedPart) :
    (articulatedPartSerialize r).length = 12 ∧
    articulatedPartMarshalledSize = 16 := by
  constructor
  · simp [articulatedPartSerialize, write_uint8, write_uint16, write_uint32,
      write_float32]
  · rfl

/-- C5 witness: the serialize/size mismatch at the default-constructed
`ArticulatedPart`. -/
theorem spec_C5_witness :
    (articulatedPartSerialize articulatedPartInit).length = 12 ∧
    articulatedPartMarshalledSize = 16 :=
  spec_C5_articulated_part_writes_12_of_16 articulatedPartInit

/-- C6: the declared 32-bit appearance layouts do not all sum to 32:
SurfacePlatform sums to 34, HumanLifeForm to 33, Environmental to 31 and
Expendable to 27, so those four fail the construction-time width-sum
validation; the other nine layouts do sum to 32. -/
theorem spec_C6_width_sums :
    sumWidths landPlatformAppearanceFields = 32 ∧
    sumWidths airPlatformAppearanceFields = 32 ∧
    sumWidths surfacePlatformAppearanceFields = 34 ∧
    sumWidths subsurfacePlatformAppearanceFields = 32 ∧
    sumWidths spacePlatformAppearanceFields = 32 ∧
    sumWidths munitionAppearanceFields = 32 ∧
    sumWidths humanLifeFormAppearanceFields = 33 ∧
    sumWidths environmentalAppearanceFields = 31 ∧
    sumWidths culturalFeatureAppearanceFields = 32 ∧
    sumWidths supplyAppearanceFields = 32 ∧
    sumWidths radioAppearanceFields = 32 ∧
    sumWidths expendableAppearanceFields = 27 ∧
    sumWidths sensorEmitterAppearanceFields = 32 ∧
    bitfieldWidthsValid surfacePlatformAppearanceFields 32 = false ∧
    bitfieldWidthsValid humanLifeFormAppearanceFields 32 = false ∧
    bitfieldWidthsValid environmentalAppearanceFields 32 = false ∧
    bitfieldWidthsValid expendableAppearanceFields 32 = false := by
  decide

/-- C7: for an unregistered discriminator, `getVariableParameterClass`
returns the `UnknownVariableParameterRecord` placeholder with its
`recordType` attribute never assigned (the `isinstance` test on a class
object is always false), so the placeholder does not carry the observed
discriminator 5. -/
theorem spec_C7_unknown_vp_recordType_not_set :
    getVariableParameterClass 5 = .unknownVariableParameterRecord none ∧
    VPClass.unknownVariableParameterRecord none ≠
      .unknownVariableParameterRecord (some 5) ∧
    getVariableParameterClass 0 = .articulatedPart ∧
    getVariableParameterClass 1 = .attachedPart := by
  refine ⟨by decide, by decide, by decide, by decide⟩

/-- C8: serialize does not always succeed on newly constructed values:
`AttachedPart()` and `MunitionAppearance()` both raise `AttributeError`
because their `serialize` reads an attribute (`parameterValue`,
resp. `unused`) that `__init__` never assigns. -/
theorem spec_C8_serialize_fails_on_fresh_values :
    attachedPartSerialize attachedPartInit = .error .attributeError ∧
    munitionAppearanceSerialize munitionAppearanceInit =
      .error .attributeError := by
  refine ⟨rfl, rfl⟩

/-- C3 counterexample: serializing the sequence holding one concrete
`HighFidelityHAVEQUICKRadio` (all defaults) and parsing the output yields an
`UnknownStandardVariable` — no per-item dispatch to the concrete type occurs,
so the parsed item is not field-by-field equal to the original. -/
theorem spec_C3_counterexample_no_dispatch :
    standardVariablesParse []
      (standardVariablesSerialize
        [SVRecord.highFidelityHAVEQUICKRadio 0 0 0 0 0 0 0 0 0 0 0 0 0 0]) =
      .ok ([SVRecord.unknownStandardVariable 3000 (List.replicate 34 0)], []) ∧
    SVRecord.unknownStandardVariable 3000 (List.replicate 34 0) ≠
      SVRecord.highFidelityHAVEQUICKRadio 0 0 0 0 0 0 0 0 0 0 0 0 0 0 := by
  refine ⟨by rfl, by decide⟩

/-- C3 (amended): serializing a `StandardVariables` sequence of N records
writes a leading 2-byte count equal to N followed by each item's own
serialization, and parsing that output yields the original sequence, items
equal field by field — provided every item is an `UnknownStandardVariable`
with a nonempty payload (parse dispatches every record to the Unknown
fallback, and rejects total length ≤ 6), discriminators below 2^32, total
lengths and N below 2^16. -/
theorem spec_C3_sequence_roundtrip_unknown_items
    (prior items : List SVRecord)
    (hcount : items.length < 65536)
    (hvalid : ∀ r ∈ items, ∃ t data,
      r = SVRecord.unknownStandardVariable t data ∧ t < 4294967296 ∧
      0 < data.length ∧ 6 + data.length < 65536) :
    (standardVariablesSerialize items).take 2 = write_uint16 items.length ∧
    standardVariablesParse prior (standardVariablesSerialize items) =
      .ok (items, []) := by
  constructor
  · rfl
  · simp only [standardVariablesParse, standardVariablesSerialize,
      read_uint16_of_write, Nat.mod_eq_of_lt hcount]
    have h := parseSVItems_of_serialized items [] hvalid
    simpa using h

/-- C3 witness: the amended round trip at a one-element sequence holding
`UnknownStandardVariable(5, bytes [1,2,3])`, parsed over a nonempty prior
list. -/
theorem spec_C3_witness :
    (standardVariablesSerialize [SVRecord.unknownStandardVariable 5 [1, 2, 3]]).take 2 =
      write_uint16 ([SVRecord.unknownStandardVariable 5 [1, 2, 3]] : List SVRecord).length ∧
    standardVariablesParse [SVRecord.unknownStandardVariable 9 []]
      (standardVariablesSerialize [SVRecord.unknownStandardVariable 5 [1, 2, 3]]) =
      .ok ([SVRecord.unknownStandardVariable 5 [1, 2, 3]], []) :=
  spec_C3_sequence_roundtrip_unknown_items
    [SVRecord.unknownStandardVariable 9 []]
    [SVRecord.unknownStandardVariable 5 [1, 2, 3]]
    (by decide)
    (by
      intro r hr
      simp only [List.mem_singleton] at hr
      exact ⟨5, [1, 2, 3], hr, by decide, by decide, by decide⟩)

/-- C4 counterexample: a header-only record with declared total length
exactly 6 does not parse successfully — the validation rejects it with the
length-too-small fault (the check is `bytelength <= 6`, not `< 6`). -/
theorem spec_C4_counterexample_length6_rejected :
    unknownStandardVariableParse 7 (some 6) [0, 0, 0, 0] =
      .error .bytelengthTooSmall ∧
    unknownStandardVariableParse 7 (some 5) [0, 0, 0, 0] =
      .error .bytelengthTooSmall := by
  refine ⟨rfl, rfl⟩

/-- C4 (amended): parsing a length-prefixed Standard Variable record raises
the length-too-small decode fault if and only if the declared total length is
at most 6; the minimum successfully parseable total length is 7 (validation
passes exactly when the length exceeds 6). -/
theorem spec_C4_length_fault_iff_le_six (t n : Nat) (s : List Nat) :
    (unknownStandardVariableParse t (some n) s =
        .error .bytelengthTooSmall ↔ n ≤ 6) ∧
    (standardVariableRecordParseValidate (some n) = .ok () ↔ 6 < n) := by
  by_cases hn : n ≤ 6
  · constructor
    · simp [unknownStandardVariableParse, standardVariableRecordParseValidate, hn]
    · simp only [standardVariableRecordParseValidate, if_pos hn]
      constructor
      · intro h; exact absurd h (by simp)
      · omega
  · constructor
    · cases hb : read_bytes (n - 6) s with
      | none =>
          simp [unknownStandardVariableParse,
            standardVariableRecordParseValidate, hn, hb]
      | some p =>
          simp [unknownStandardVariableParse,
            standardVariableRecordParseValidate, hn, hb]
    · simp only [standardVariableRecordParseValidate, if_neg hn]
      constructor
      · intro _; omega
      · intro _; trivial

/-- C9: `getEntityAppearanceClass` coincides everywhere with the ordered
top-to-bottom, first-match-wins rule list of the claim — kind 0 to Unknown
for every domain, kind 1 with domains 1–5 to the Land/Air/Surface/Subsurface/
Space platform classes, kinds 2–9 to their kind-specific class for every
domain, and everything else (including kind 1 with a domain outside 1–5) to
Unknown via the final default rule. -/
theorem spec_C9_dispatch_matches_ordered_rules (k : Nat) (d : Option Nat) :
    getEntityAppearanceClass k d = appearanceDispatchSpec k d := by
  rcases k with _ | _ | _ | _ | _ | _ | _ | _ | _ | _ | k <;> try rfl
  rcases d with _ | d
  · rfl
  · rcases d with _ | _ | _ | _ | _ | _ | d <;> rfl

/-- C10: `SilentEntitySystem.parse` accumulates — on success the resulting
`entityAppearances` list is the prior list with the parsed records appended,
its length grows by exactly the appearance-record count read from the
stream, while `entityCount` and `entityType` are overwritten from the
stream; by contrast `StandardVariables.parse` discards its prior item list,
so its result is independent of it. -/
theorem spec_C10_silent_entity_system_parse_appends
    (st st' : SilentEntitySystem) (s rest : List Nat)
    (ec c : Nat) (s1 s2 s3 : List Nat) (et : EntityType)
    (h : silentEntitySystemParse st s = some (st', rest))
    (h1 : read_uint16 s = some (ec, s1))
    (h2 : read_uint16 s1 = some (c, s2))
    (h3 : entityTypeParse s2 = some (et, s3)) :
    st'.entityAppearances.length = st.entityAppearances.length + c ∧
    (∃ items, items.length = c ∧
      st'.entityAppearances = st.entityAppearances ++ items) ∧
    st'.entityCount = ec ∧ st'.entityType = et ∧
    (∀ (prior1 prior2 : List SVRecord) (u : List Nat),
      standardVariablesParse prior1 u = standardVariablesParse prior2 u) := by
  simp only [silentEntitySystemParse, h1, h2, h3] at h
  cases hp : parseAppearanceRecords
      (getEntityAppearanceClass et.entityKind (some et.domain)) c s3 with
  | none => simp [hp] at h
  | some q =>
      obtain ⟨items, s4⟩ := q
      simp only [hp, Option.some.injEq, Prod.mk.injEq] at h
      obtain ⟨hst, -⟩ := h
      have hlen : items.length = c :=
        parseAppearanceRecords_length_eq _ c s3 items s4 hp
      subst hst
      refine ⟨by simp [hlen], ⟨items, hlen, rfl⟩, rfl, rfl, fun _ _ _ => rfl⟩

/-- C10 witness: a `SilentEntitySystem` holding one prior appearance record,
parsing a stream with entityCount 7, appearance-record count 2 and entity
kind 0 (dispatched to `UnknownAppearance`), ends with three records — the
prior one plus the two read from the stream. -/
theorem spec_C10_witness :
    silentEntitySystemParse
        (SilentEntitySystem.mk 0 (EntityType.mk 0 0 0 0 0 0 0)
          [AppearanceVal.unknownDefaultKept [9, 9, 9, 9]])
        [0, 7, 0, 2, 0, 0, 0, 0, 0, 0, 0, 0, 1, 2, 3, 4, 5, 6, 7, 8] =
      some (SilentEntitySystem.mk 7 (EntityType.mk 0 0 0 0 0 0 0)
          [AppearanceVal.unknownDefaultKept [9, 9, 9, 9],
           AppearanceVal.unknownDefaultKept [0, 0, 0, 0],
           AppearanceVal.unknownDefaultKept [0, 0, 0, 0]], []) ∧
    ((SilentEntitySystem.mk 7 (EntityType.mk 0 0 0 0 0 0 0)
          [AppearanceVal.unknownDefaultKept [9, 9, 9, 9],
           AppearanceVal.unknownDefaultKept [0, 0, 0, 0],
           AppearanceVal.unknownDefaultKept [0, 0, 0, 0]]).entityAppearances.length =
        (SilentEntitySystem.mk 0 (EntityType.mk 0 0 0 0 0 0 0)
          [AppearanceVal.unknownDefaultKept [9, 9, 9, 9]]).entityAppearances.length + 2 ∧
      (∃ items, items.length = 2 ∧
        (SilentEntitySystem.mk 7 (EntityType.mk 0 0 0 0 0 0 0)
          [AppearanceVal.unknownDefaultKept [9, 9, 9, 9],
           AppearanceVal.unknownDefaultKept [0, 0, 0, 0],
           AppearanceVal.unknownDefaultKept [0, 0, 0, 0]]).entityAppearances =
        (SilentEntitySystem.mk 0 (EntityType.mk 0 0 0 0 0 0 0)
          [AppearanceVal.unknownDefaultKept [9, 9, 9, 9]]).entityAppearances ++ items) ∧
      (SilentEntitySystem.mk 7 (EntityType.mk 0 0 0 0 0 0 0)
          [AppearanceVal.unknownDefaultKept [9, 9, 9, 9],
           AppearanceVal.unknownDefaultKept [0, 0, 0, 0],
           AppearanceVal.unknownDefaultKept [0, 0, 0, 0]]).entityCount = 7 ∧
      (SilentEntitySystem.mk 7 (EntityType.mk 0 0 0 0 0 0 0)
          [AppearanceVal.unknownDefaultKept [9, 9, 9, 9],
           AppearanceVal.unknownDefaultKept [0, 0, 0, 0],
           AppearanceVal.unknownDefaultKept [0, 0, 0, 0]]).entityType =
        EntityType.mk 0 0 0 0 0 0 0 ∧
      (∀ (prior1 prior2 : List SVRecord) (u : List Nat),
        standardVariablesParse prior1 u = standardVariablesParse prior2 u)) :=
  ⟨rfl,
   spec_C10_silent_entity_system_parse_appends
     (SilentEntitySystem.mk 0 (EntityType.mk 0 0 0 0 0 0 0)
       [AppearanceVal.unknownDefaultKept [9, 9, 9, 9]])
     (SilentEntitySystem.mk 7 (EntityType.mk 0 0 0 0 0 0 0)
       [AppearanceVal.unknownDefaultKept [9, 9, 9, 9],
        AppearanceVal.unknownDefaultKept [0, 0, 0, 0],
        AppearanceVal.unknownDefaultKept [0, 0, 0, 0]])
     [0, 7, 0, 2, 0, 0, 0, 0, 0, 0, 0, 0, 1, 2, 3, 4, 5, 6, 7, 8] []
     7 2
     [0, 2, 0, 0, 0, 0, 0, 0, 0, 0, 1, 2, 3, 4, 5, 6, 7, 8]
     [0, 0, 0, 0, 0, 0, 0, 0, 1, 2, 3, 4, 5, 6, 7, 8]
     [1, 2, 3, 4, 5, 6, 7, 8]
     (EntityType.mk 0 0 0 0 0 0 0)
     rfl rfl rfl rfl⟩
